import Mathlib

/-!
Shallow embedding of `apa102_gpiod/apa102.py`, the APA102 LED driver.

Modelling conventions:
* Python `int` is modelled as `ℤ`; the framebuffer (`bytearray`) is a
  `List ℤ` of byte values.
* Python bitwise `|`, `&`, `>>` on non-negative ints are `Int.lor`,
  `Int.land`, and `>>>` (the `ShiftRight ℤ` instance).
* The GPIO line handle's `set_values((clk, data))` calls are modelled as a
  trace: a `List (ℤ × ℤ)` of (clock, data) pair-writes, in call order.
* Exceptions are modelled with `Except`/`Option` result types; the state of
  the object when an exception propagates is the unchanged input state
  (CPython mutates nothing past the raise point in the modelled paths).
* `struct.pack('<BBBB', ...)` range enforcement is not modelled: every call
  site that the theorems exercise packs values already validated to byte
  range, where `struct.pack` cannot fail.
* `isinstance(_, int)` checks are identically true in this model, since the
  field type is `ℤ`; the non-integer branch of validation is out of the
  model's reach.
-/

namespace Apa102

/-- `LedOutput = collections.namedtuple('LedOutput', ('brt', 'r', 'g', 'b'))`. -/
structure LedOutput where
  brt : ℤ
  r : ℤ
  g : ℤ
  b : ℤ
deriving DecidableEq

/-- `APA102_START = b'\x00\x00\x00\x00'`. -/
def APA102_START : List ℤ := [0, 0, 0, 0]

/-- Result of `_check_ledoutput_range`: `none` when no exception is raised;
`some (field, reported)` models `raise ValueError` where `field` is the
field named in the message ("... setting invalid") and `reported` is the
value interpolated into the message via `{..!r}`.  Note: the source's green
and blue branches interpolate `o.r` (not `o.g`/`o.b`) into the message. -/
def _check_ledoutput_range (o : LedOutput) : Option (String × ℤ) :=
  if ¬(0 ≤ o.brt ∧ o.brt ≤ 0x1f) then some ("brightness", o.brt)
  else if ¬(0 ≤ o.r ∧ o.r ≤ 0xff) then some ("red", o.r)
  else if ¬(0 ≤ o.g ∧ o.g ≤ 0xff) then some ("green", o.r)
  else if ¬(0 ≤ o.b ∧ o.b ≤ 0xff) then some ("blue", o.r)
  else none

/-- `_generate_end_sequence(leds)`:
`edges_required = ((leds - 1) if leds else 0)`; `bytes_required` is 0 when
`edges_required` is 0, otherwise `edges // 16 + 1` if `edges % 16` else
`edges // 16`; the output is `bytes_required` zero bytes. -/
def _generate_end_sequence (leds : ℕ) : List ℤ :=
  let edges_required := if leds ≠ 0 then leds - 1 else 0
  let bytes_required :=
    if edges_required ≠ 0 then
      (if edges_required % 16 ≠ 0 then edges_required / 16 + 1
       else edges_required / 16)
    else 0
  List.replicate bytes_required 0

/-- `_pack_wrgb(o) = struct.pack('<BBBB', o.brt | 0xe0, o.b, o.g, o.r)`. -/
def _pack_wrgb (o : LedOutput) : List ℤ :=
  [Int.lor o.brt 0xe0, o.b, o.g, o.r]

/-- `_ledoutput_from_led_command(command) =
LedOutput(command[0] & 0x1f, command[3], command[2], command[1])`.
The input is always a 4-byte slice; out-of-range accesses (impossible at the
modelled call sites) default to 0. -/
def _ledoutput_from_led_command (command : List ℤ) : LedOutput :=
  ⟨Int.land (command.getD 0 0) 0x1f, command.getD 3 0,
   command.getD 2 0, command.getD 1 0⟩

/-- Python errors raised by the indexed accessors. -/
inductive PyError where
  /-- `ValueError` from `_check_ledoutput_range`, carrying the field named
  in the message and the value interpolated into it. -/
  | valueError (field : String) (got : ℤ)
  /-- `IndexError: out-of-range LED index`. -/
  | indexError
deriving DecidableEq

/-- State of an `APA102` object: the LED count `self._leds`, the dirty flag
`self._data_modified`, and the framebuffer `self._data` (byte values).  The
gpiod chip/lines handles carry no modelled state; their `set_values` calls
are returned as traces by `commit`. -/
structure APA102 where
  _leds : ℕ
  _data_modified : Bool
  _data : List ℤ
deriving DecidableEq

/-- The Python slice `self._view[4 + i*4 : 8 + i*4]`. -/
def sliceWord (d : List ℤ) (i : ℕ) : List ℤ :=
  (d.drop (4 + 4 * i)).take 4

/-- The Python slice assignment `self._view[4 + i*4 : 8 + i*4] = w` for a
4-byte `w`, at an index where the slice is fully in bounds. -/
def setSlice (d : List ℤ) (i : ℕ) (w : List ℤ) : List ℤ :=
  d.take (4 + 4 * i) ++ w ++ d.drop (8 + 4 * i)

/-- `APA102.__init__` with `reset=False`: `_leds = leds`,
`_data_modified = True`, `_data = bytearray(APA102_START)` extended with
`_pack_wrgb(LedOutput(0,0,0,0)) * leds` and `_generate_end_sequence(leds)`.
(`reset=True` additionally calls `commit`, modelled separately.) -/
def APA102.init (leds : ℕ) : APA102 :=
  { _leds := leds
    _data_modified := true
    _data := APA102_START
      ++ (List.replicate leds (_pack_wrgb ⟨0, 0, 0, 0⟩)).flatten
      ++ _generate_end_sequence leds }

/-- `APA102.__getitem__(i)`: raises `IndexError` unless `0 <= i < self._leds`,
else decodes the stored 4-byte word. -/
def APA102.getitem (s : APA102) (i : ℤ) : Except PyError LedOutput :=
  if ¬(0 ≤ i ∧ i < (s._leds : ℤ)) then .error .indexError
  else .ok (_ledoutput_from_led_command (sliceWord s._data i.toNat))

/-- `APA102.set_unchecked(i, o)`: packs `o` (via `_pack_wrgb_direct` into
`self._wrgb_buffer`), compares against the stored word, and only on a
difference overwrites the word and sets the dirty flag. -/
def APA102.set_unchecked (s : APA102) (i : ℕ) (o : LedOutput) : APA102 :=
  let w := _pack_wrgb o
  if w ≠ sliceWord s._data i then
    { s with _data := setSlice s._data i w, _data_modified := true }
  else s

/-- `APA102.__setitem__(i, o)`: first `_check_ledoutput_range(o)` (raising
`ValueError`), then the index bound check (raising `IndexError`), then
`set_unchecked`. -/
def APA102.setitem (s : APA102) (i : ℤ) (o : LedOutput) :
    Except PyError APA102 :=
  match _check_ledoutput_range o with
  | some e => .error (.valueError e.1 e.2)
  | none =>
    if ¬(0 ≤ i ∧ i < (s._leds : ℤ)) then .error .indexError
    else .ok (s.set_unchecked i.toNat o)

/-- The 16 `set_values` calls `commit` issues for one byte: for each bit
from bit 7 down to bit 0, `set_values((0, bit))` then `set_values((1, bit))`
with `bit = (byte >> k) & 0x01`.  This transcribes the unrolled loop body of
`APA102.commit`. -/
def transmitByte (byte : ℤ) : List (ℤ × ℤ) :=
  [(0, Int.land (byte >>> (7 : ℤ)) 1), (1, Int.land (byte >>> (7 : ℤ)) 1),
   (0, Int.land (byte >>> (6 : ℤ)) 1), (1, Int.land (byte >>> (6 : ℤ)) 1),
   (0, Int.land (byte >>> (5 : ℤ)) 1), (1, Int.land (byte >>> (5 : ℤ)) 1),
   (0, Int.land (byte >>> (4 : ℤ)) 1), (1, Int.land (byte >>> (4 : ℤ)) 1),
   (0, Int.land (byte >>> (3 : ℤ)) 1), (1, Int.land (byte >>> (3 : ℤ)) 1),
   (0, Int.land (byte >>> (2 : ℤ)) 1), (1, Int.land (byte >>> (2 : ℤ)) 1),
   (0, Int.land (byte >>> (1 : ℤ)) 1), (1, Int.land (byte >>> (1 : ℤ)) 1),
   (0, Int.land (byte >>> (0 : ℤ)) 1), (1, Int.land (byte >>> (0 : ℤ)) 1)]

/-- The full `set_values` trace of a transmitting commit:
`for i in range(len(self._data))`, transmit `self._data[i]`. -/
def transmitBytes (data : List ℤ) : List (ℤ × ℤ) :=
  data.flatMap transmitByte

/-- `APA102.commit()` in the non-failing case: if `self._data_modified`,
issue the whole `set_values` trace and afterwards clear the flag; otherwise
do nothing.  Returns the new state and the trace of GPIO pair-writes. -/
def APA102.commit (s : APA102) : APA102 × List (ℤ × ℤ) :=
  if s._data_modified then
    ({ s with _data_modified := false }, transmitBytes s._data)
  else (s, [])

/-- `APA102.commit()` with a fallible GPIO handle: `ok j` says whether the
`j`-th `set_values` call of this commit succeeds.  The first failing call
raises `OSError`, which propagates out of `commit` before the
`self._data_modified = False` line runs, so on `.error` the object state is
unchanged and only the trace prefix before the failure was written. -/
def APA102.commitFallible (s : APA102) (ok : ℕ → Bool) :
    Except (APA102 × List (ℤ × ℤ)) (APA102 × List (ℤ × ℤ)) :=
  if s._data_modified then
    match (List.range (transmitBytes s._data).length).find? (fun j => !(ok j)) with
    | some j => .error (s, (transmitBytes s._data).take j)
    | none => .ok ({ s with _data_modified := false }, transmitBytes s._data)
  else .ok (s, [])

/-- The validity predicate of the spec's data model: brightness in `[0,31]`,
each color channel in `[0,255]`. -/
abbrev validLedOutput (o : LedOutput) : Prop :=
  0 ≤ o.brt ∧ o.brt ≤ 0x1f ∧ 0 ≤ o.r ∧ o.r ≤ 0xff ∧
  0 ≤ o.g ∧ o.g ≤ 0xff ∧ 0 ≤ o.b ∧ o.b ≤ 0xff

end Apa102

namespace Apa102

/-! ### Helper lemmas -/

theorem nat_lor_land_mask (n : ℕ) (h : n ≤ 31) : ((n ||| 224) &&& 31) = n :=
  (by decide : ∀ m : Fin 32, ((m.val ||| 224) &&& 31) = m.val) ⟨n, by omega⟩

set_option maxRecDepth 4000 in
theorem nat_land_lor_mask (n : ℕ) (h : n < 256) (h2 : n &&& 224 = 224) :
    ((n &&& 31) ||| 224) = n :=
  (by decide : ∀ m : Fin 256, (m.val &&& 224 = 224) →
    ((m.val &&& 31) ||| 224) = m.val) ⟨n, h⟩ h2

theorem int_lor_land_mask (z : ℤ) (h0 : 0 ≤ z) (h1 : z ≤ 31) :
    Int.land (Int.lor z 0xe0) 0x1f = z := by
  obtain ⟨n, rfl⟩ : ∃ n : ℕ, z = (n : ℤ) := ⟨z.toNat, (Int.toNat_of_nonneg h0).symm⟩
  have hn : n ≤ 31 := by exact_mod_cast h1
  calc Int.land (Int.lor (n : ℤ) 0xe0) 0x1f = (((n ||| 224) &&& 31 : ℕ) : ℤ) := rfl
    _ = (n : ℤ) := by rw [nat_lor_land_mask n hn]

theorem int_land_lor_mask (z : ℤ) (h0 : 0 ≤ z) (h1 : z ≤ 255)
    (h2 : Int.land z 0xe0 = 0xe0) : Int.lor (Int.land z 0x1f) 0xe0 = z := by
  obtain ⟨n, rfl⟩ : ∃ n : ℕ, z = (n : ℤ) := ⟨z.toNat, (Int.toNat_of_nonneg h0).symm⟩
  have hn : n < 256 := by omega
  have h2n : n &&& 224 = 224 := by
    have : (((n &&& 224 : ℕ)) : ℤ) = ((224 : ℕ) : ℤ) := h2
    exact_mod_cast this
  calc Int.lor (Int.land (n : ℤ) 0x1f) 0xe0 = (((n &&& 31) ||| 224 : ℕ) : ℤ) := rfl
    _ = (n : ℤ) := by rw [nat_land_lor_mask n hn h2n]

/-- Decoding a packed word recovers the packed `LedOutput`, for valid values. -/
theorem unpack_pack (o : LedOutput) (h : validLedOutput o) :
    _ledoutput_from_led_command (_pack_wrgb o) = o := by
  obtain ⟨brt, r, g, b⟩ := o
  obtain ⟨h0, h1, -⟩ := h
  show LedOutput.mk (Int.land (Int.lor brt 0xe0) 0x1f) r g b = ⟨brt, r, g, b⟩
  rw [int_lor_land_mask brt h0 h1]

/-- Packing a decoded 4-byte word recovers the word, when the first byte has
its top three bits set. -/
theorem pack_unpack (w : List ℤ) (hlen : w.length = 4)
    (hbytes : ∀ x ∈ w, 0 ≤ x ∧ x ≤ 255)
    (htop : Int.land (w.getD 0 0) 0xe0 = 0xe0) :
    _pack_wrgb (_ledoutput_from_led_command w) = w := by
  match w, hlen with
  | [w0, w1, w2, w3], _ =>
    obtain ⟨hw0a, hw0b⟩ := hbytes w0 (by simp)
    show [Int.lor (Int.land w0 0x1f) 0xe0, w1, w2, w3] = [w0, w1, w2, w3]
    rw [int_land_lor_mask w0 hw0a hw0b htop]

/-- Validation passes exactly on valid values. -/
theorem check_valid_none (o : LedOutput) (h : validLedOutput o) :
    _check_ledoutput_range o = none := by
  obtain ⟨h1, h2, h3, h4, h5, h6, h7, h8⟩ := h
  simp [_check_ledoutput_range, h1, h2, h3, h4, h5, h6, h7, h8]

theorem setSlice_length (d w : List ℤ) (i : ℕ) (hw : w.length = 4)
    (hb : 8 + 4 * i ≤ d.length) : (setSlice d i w).length = d.length := by
  simp only [setSlice, List.length_append, List.length_take, List.length_drop]
  omega

theorem drop_append_length (l1 l2 : List ℤ) (n : ℕ) (h : l1.length = n) :
    (l1 ++ l2).drop n = l2 := by
  subst h; exact List.drop_left l1 l2

theorem take_append_length (l1 l2 : List ℤ) (n : ℕ) (h : l1.length = n) :
    (l1 ++ l2).take n = l1 := by
  subst h; exact List.take_left l1 l2

theorem sliceWord_setSlice (d w : List ℤ) (i : ℕ) (hw : w.length = 4)
    (hb : 8 + 4 * i ≤ d.length) : sliceWord (setSlice d i w) i = w := by
  have h1 : (d.take (4 + 4 * i)).length = 4 + 4 * i := by
    rw [List.length_take]; omega
  rw [sliceWord, setSlice, List.append_assoc,
      drop_append_length _ _ _ h1, take_append_length _ _ _ hw]

theorem set_unchecked_eq (s : APA102) (i : ℕ) (o : LedOutput) :
    s.set_unchecked i o =
      if _pack_wrgb o ≠ sliceWord s._data i then
        { s with _data := setSlice s._data i (_pack_wrgb o),
                 _data_modified := true }
      else s := rfl

theorem set_unchecked_leds (s : APA102) (i : ℕ) (o : LedOutput) :
    (s.set_unchecked i o)._leds = s._leds := by
  rw [set_unchecked_eq]
  split <;> rfl

theorem set_unchecked_data_length (s : APA102) (i : ℕ) (o : LedOutput)
    (hb : 8 + 4 * i ≤ s._data.length) :
    (s.set_unchecked i o)._data.length = s._data.length := by
  rw [set_unchecked_eq]
  split
  · exact setSlice_length _ _ _ rfl hb
  · rfl

theorem sliceWord_set_unchecked (s : APA102) (i : ℕ) (o : LedOutput)
    (hb : 8 + 4 * i ≤ s._data.length) :
    sliceWord (s.set_unchecked i o)._data i = _pack_wrgb o := by
  rw [set_unchecked_eq]
  split
  · exact sliceWord_setSlice _ _ _ rfl hb
  · rename_i h
    rw [not_not] at h
    exact h.symm

theorem flatten_replicate_length (N : ℕ) (l : List ℤ) :
    ((List.replicate N l).flatten).length = N * l.length := by
  induction N with
  | zero => simp
  | succ n ih =>
    simp only [List.replicate_succ, List.flatten_cons, List.length_append, ih]
    ring

end Apa102

namespace Apa102

/-! ### Claim theorems -/

/-- Claim C1, counterexample: the claim's enumerated byte count for `N = 17`
is `2`, but the code (and the claim's own general formula
`ceil(max(N-1,0)/16)`, since `edges = 16` and `ceil(16/16) = 1`) yields `1`
zero byte. -/
theorem end_sequence_17_is_one_byte :
    (_generate_end_sequence 17).length = 1 ∧
    (_generate_end_sequence 17).length ≠ 2 := by decide

/-- Claim C1 as amended: for every non-negative LED count `N`, the generated
end-frame sequence consists of exactly `ceil(max(N-1,0)/16)` zero bytes (on
`ℕ`, `⌈e/16⌉ = (e+15)/16`); in particular, for `N ∈ {0,1,2,16,17,1000}` the
byte counts are `{0,0,1,1,1,63}` (`1`, not `2`, at `N = 17`). -/
theorem end_sequence_is_ceil_zero_bytes :
    (∀ N : ℕ, _generate_end_sequence N =
      List.replicate ((max (N - 1) 0 + 15) / 16) 0) ∧
    (_generate_end_sequence 0).length = 0 ∧
    (_generate_end_sequence 1).length = 0 ∧
    (_generate_end_sequence 2).length = 1 ∧
    (_generate_end_sequence 16).length = 1 ∧
    (_generate_end_sequence 17).length = 1 ∧
    (_generate_end_sequence 1000).length = 63 := by
  refine ⟨?_, by decide, by decide, by decide, by decide, by decide, by decide⟩
  intro N
  simp only [_generate_end_sequence]
  congr 1
  split_ifs <;> omega

/-- Claim C2 (divergence witness): at the failing input
`LedOutput(brt=0, r=0, g=256, b=0)`, the indexed set raises `ValueError`
naming the `green` field but interpolating the value `0` (which is `o.r`,
the red field's value) into the message, not the invalid green value `256`:
the source's green branch formats `{o.r!r}`.  The blue branch has the same
slip; the claim (message contains the offending field's value) is the
spec's clear intent and fails on the code. -/
theorem setitem_green_error_reports_red_value :
    (APA102.init 1).setitem 0 ⟨0, 0, 256, 0⟩ =
      .error (.valueError "green" 0) ∧
    _check_ledoutput_range ⟨0, 0, 256, 0⟩ = some ("green", 0) ∧
    (0 : ℤ) ≠ 256 :=
  ⟨rfl, by decide, by decide⟩

/-- Claim C3: packing and unpacking are mutually inverse: for every valid
`LedOutput` `v`, `unpack (pack v) = v`, and for every 4-byte word `w` whose
first byte has its top 3 bits equal to `111` (`w₀ & 0xe0 = 0xe0`),
`pack (unpack w) = w`. -/
theorem pack_unpack_mutually_inverse :
    (∀ o : LedOutput, validLedOutput o →
      _ledoutput_from_led_command (_pack_wrgb o) = o) ∧
    (∀ w : List ℤ, w.length = 4 → (∀ x ∈ w, 0 ≤ x ∧ x ≤ 255) →
      Int.land (w.getD 0 0) 0xe0 = 0xe0 →
      _pack_wrgb (_ledoutput_from_led_command w) = w) :=
  ⟨unpack_pack, pack_unpack⟩

/-- Witness for C3 at the test vectors `LedOutput(11, 125, 65, 200)` and
`0xef 0x45 0xab 0xde`. -/
theorem pack_unpack_mutually_inverse_witness :
    _ledoutput_from_led_command (_pack_wrgb ⟨11, 125, 65, 200⟩) =
      ⟨11, 125, 65, 200⟩ ∧
    _pack_wrgb (_ledoutput_from_led_command [0xef, 0x45, 0xab, 0xde]) =
      [0xef, 0x45, 0xab, 0xde] :=
  ⟨pack_unpack_mutually_inverse.1 ⟨11, 125, 65, 200⟩ (by decide),
   pack_unpack_mutually_inverse.2 [0xef, 0x45, 0xab, 0xde] (by decide)
     (by decide) (by decide)⟩

/-- Claim C5: during a transmitting commit each byte is sent MSB-first with
exactly two `set_values` pair-writes per bit: write `2k` is `(clock=0,
data=bit k)` (data carries the bit one write-step before the clock
assertion, clock low immediately before) and write `2k+1` is `(clock=1,
data=bit k)`, where `bit k = (byte >> (7-k)) & 1`; and for byte `0x88` the
data values at the eight clock assertions are `1,0,0,0,1,0,0,0`. -/
theorem commit_bit_waveform (byte : ℤ) (k : ℕ) (hk : k < 8) :
    (transmitByte byte).length = 16 ∧
    (transmitByte byte).getD (2 * k) (2, 2) =
      (0, Int.land (byte >>> ((7 - k : ℕ) : ℤ)) 1) ∧
    (transmitByte byte).getD (2 * k + 1) (2, 2) =
      (1, Int.land (byte >>> ((7 - k : ℕ) : ℤ)) 1) ∧
    ((transmitByte 0x88).filter (fun p => p.1 == 1)).map Prod.snd =
      [1, 0, 0, 0, 1, 0, 0, 0] := by
  refine ⟨rfl, ?_, ?_, by decide⟩
  · interval_cases k <;> rfl
  · interval_cases k <;> rfl

/-- Witness for C5 at `byte = 0x88`, `k = 0`. -/
theorem commit_bit_waveform_witness :
    (transmitByte 0x88).getD 1 (2, 2) =
      (1, Int.land ((0x88 : ℤ) >>> ((7 - 0 : ℕ) : ℤ)) 1) :=
  (commit_bit_waveform 0x88 0 (by decide)).2.2.1

/-- Claim C10: `commit` never modifies the framebuffer: the LED count and
buffer bytes are unchanged and every `Get` returns the same value as
before; the dirty flag is the only field `commit` may change. -/
theorem commit_preserves_framebuffer (s : APA102) :
    (s.commit).1._data = s._data ∧ (s.commit).1._leds = s._leds ∧
    ∀ i : ℤ, (s.commit).1.getitem i = s.getitem i := by
  unfold APA102.commit
  split
  · exact ⟨rfl, rfl, fun i => rfl⟩
  · exact ⟨rfl, rfl, fun i => rfl⟩

end Apa102

namespace Apa102

/-- Claim C4: `commit` is delta-aware via the dirty flag: when set, it
transmits the entire framebuffer in buffer order and clears the flag; when
clear, it performs no GPIO writes.  Setting an LED whose stored (packed)
word already equals the new value's packed word is a no-op on the state;
setting a different value sets the flag; the flag is initially set, so the
first commit after construction transmits the full buffer and an immediate
second commit transmits nothing. -/
theorem commit_delta_aware :
    (∀ s : APA102, s._data_modified = true →
      (s.commit).1 = { s with _data_modified := false } ∧
      (s.commit).2 = transmitBytes s._data) ∧
    (∀ s : APA102, s._data_modified = false → s.commit = (s, [])) ∧
    (∀ (s : APA102) (i : ℕ) (o : LedOutput),
      _pack_wrgb o = sliceWord s._data i → s.set_unchecked i o = s) ∧
    (∀ (s : APA102) (i : ℕ) (o : LedOutput),
      _pack_wrgb o ≠ sliceWord s._data i →
      (s.set_unchecked i o)._data_modified = true) ∧
    (∀ N : ℕ, (APA102.init N)._data_modified = true) ∧
    (∀ N : ℕ, ((APA102.init N).commit).2 = transmitBytes (APA102.init N)._data ∧
      (((APA102.init N).commit).1.commit).2 = []) := by
  refine ⟨?_, ?_, ?_, ?_, fun N => rfl, fun N => ⟨rfl, rfl⟩⟩
  · intro s h
    unfold APA102.commit
    rw [if_pos h]
    exact ⟨rfl, rfl⟩
  · intro s h
    unfold APA102.commit
    rw [if_neg (by simp [h])]
  · intro s i o h
    rw [set_unchecked_eq, if_neg (not_not_intro h)]
  · intro s i o h
    rw [set_unchecked_eq, if_pos h]

/-- Witness for C4 on a one-LED strip. -/
theorem commit_delta_aware_witness :
    ((APA102.init 1).commit).1 = { APA102.init 1 with _data_modified := false } ∧
    ((APA102.init 1).commit).2 = transmitBytes (APA102.init 1)._data ∧
    ((APA102.init 1).commit).1.commit = (((APA102.init 1).commit).1, []) ∧
    (APA102.init 1).set_unchecked 0 ⟨0, 0, 0, 0⟩ = APA102.init 1 ∧
    ((APA102.init 1).set_unchecked 0 ⟨1, 0, 0, 0⟩)._data_modified = true :=
  ⟨(commit_delta_aware.1 (APA102.init 1) rfl).1,
   (commit_delta_aware.1 (APA102.init 1) rfl).2,
   commit_delta_aware.2.1 ((APA102.init 1).commit).1 rfl,
   commit_delta_aware.2.2.1 (APA102.init 1) 0 ⟨0, 0, 0, 0⟩ (by decide),
   commit_delta_aware.2.2.2.1 (APA102.init 1) 0 ⟨1, 0, 0, 0⟩ (by decide)⟩

/-- Claim C6: `commit` has no partial-success state: if a GPIO write raises
partway through transmission, the object is unchanged — in particular the
dirty flag remains set (it is cleared only after the whole framebuffer was
transmitted) — so a retried `commit` attempts a full retransmission. -/
theorem commit_no_partial_success (s : APA102) (ok : ℕ → Bool)
    (s' : APA102) (pre : List (ℤ × ℤ))
    (h : s.commitFallible ok = .error (s', pre)) :
    s' = s ∧ s'._data_modified = true ∧
    (s'.commit).2 = transmitBytes s._data := by
  unfold APA102.commitFallible at h
  split at h
  · rename_i hd
    split at h
    · injection h with h'
      injection h' with ha hb
      subst ha
      refine ⟨rfl, hd, ?_⟩
      unfold APA102.commit
      rw [if_pos hd]
    · simp at h
  · simp at h

/-- Witness for C6: on a zero-LED strip, the 4th `set_values` call fails. -/
theorem commit_no_partial_success_witness :
    APA102.init 0 = APA102.init 0 ∧
    (APA102.init 0)._data_modified = true ∧
    ((APA102.init 0).commit).2 = transmitBytes (APA102.init 0)._data :=
  commit_no_partial_success (APA102.init 0) (fun j => j != 3) (APA102.init 0)
    ((transmitBytes (APA102.init 0)._data).take 3) rfl

/-- Claim C7: constructing with `N` LEDs yields a framebuffer byte-for-byte
equal to the 4-zero-byte start sequence, `N` copies of `pack(0,0,0,0)`, and
the end frame; its length is `4 + 4N + K`, and no operation (`Set` or
`commit`) ever changes this length or the LED count. -/
theorem framebuffer_layout_fixed :
    (∀ N : ℕ, (APA102.init N)._data =
      APA102_START ++ (List.replicate N (_pack_wrgb ⟨0, 0, 0, 0⟩)).flatten ++
        _generate_end_sequence N) ∧
    (∀ N : ℕ, (APA102.init N)._data.length =
      4 + 4 * N + (_generate_end_sequence N).length) ∧
    (∀ (s s' : APA102) (i : ℤ) (o : LedOutput),
      s._data.length = 4 + 4 * s._leds + (_generate_end_sequence s._leds).length →
      s.setitem i o = .ok s' →
      s'._data.length = s._data.length ∧ s'._leds = s._leds) ∧
    (∀ s : APA102, (s.commit).1._data.length = s._data.length ∧
      (s.commit).1._leds = s._leds) := by
  refine ⟨fun N => rfl, ?_, ?_, ?_⟩
  · intro N
    simp only [APA102.init, APA102_START, List.length_append,
      flatten_replicate_length, _pack_wrgb]
    simp only [List.length_cons, List.length_nil]
    omega
  · intro s s' i o hlen h
    cases hc : _check_ledoutput_range o with
    | some e => simp [APA102.setitem, hc] at h
    | none =>
      simp only [APA102.setitem, hc] at h
      split at h
      · simp at h
      · rename_i hcond
        rw [not_not] at hcond
        injection h with h'
        subst h'
        have hidx : i.toNat < s._leds := by omega
        have hb : 8 + 4 * i.toNat ≤ s._data.length := by omega
        exact ⟨set_unchecked_data_length s i.toNat o hb,
          set_unchecked_leds s i.toNat o⟩
  · intro s
    unfold APA102.commit
    split
    · exact ⟨rfl, rfl⟩
    · exact ⟨rfl, rfl⟩

/-- Witness for C7's `Set` length preservation, on a two-LED strip. -/
theorem framebuffer_layout_fixed_witness :
    ((APA102.init 2).set_unchecked (1 : ℤ).toNat ⟨1, 2, 3, 4⟩)._data.length =
      (APA102.init 2)._data.length ∧
    ((APA102.init 2).set_unchecked (1 : ℤ).toNat ⟨1, 2, 3, 4⟩)._leds =
      (APA102.init 2)._leds :=
  framebuffer_layout_fixed.2.2.1 (APA102.init 2)
    ((APA102.init 2).set_unchecked (1 : ℤ).toNat ⟨1, 2, 3, 4⟩) 1 ⟨1, 2, 3, 4⟩
    (by decide) rfl

/-- Claim C8: for every index `i` in `[0, N)` and valid `LedOutput` `o`,
`Set(i, o)` succeeds (yielding the `set_unchecked` state) and a subsequent
`Get(i)` returns exactly `o`. -/
theorem set_then_get (s : APA102) (i : ℤ) (o : LedOutput)
    (hlen : s._data.length =
      4 + 4 * s._leds + (_generate_end_sequence s._leds).length)
    (hv : validLedOutput o) (h0 : 0 ≤ i) (hN : i < (s._leds : ℤ)) :
    s.setitem i o = .ok (s.set_unchecked i.toNat o) ∧
    (s.set_unchecked i.toNat o).getitem i = .ok o := by
  have hidx : i.toNat < s._leds := by omega
  have hb : 8 + 4 * i.toNat ≤ s._data.length := by omega
  constructor
  · simp only [APA102.setitem, check_valid_none o hv]
    rw [if_neg (not_not_intro ⟨h0, hN⟩)]
  · unfold APA102.getitem
    rw [set_unchecked_leds s i.toNat o,
      if_neg (not_not_intro ⟨h0, hN⟩),
      sliceWord_set_unchecked s i.toNat o hb, unpack_pack o hv]

/-- Witness for C8 at index 0 of a two-LED strip with `LedOutput(1,4,5,6)`. -/
theorem set_then_get_witness :
    (APA102.init 2).setitem 0 ⟨1, 4, 5, 6⟩ =
      .ok ((APA102.init 2).set_unchecked (0 : ℤ).toNat ⟨1, 4, 5, 6⟩) ∧
    ((APA102.init 2).set_unchecked (0 : ℤ).toNat ⟨1, 4, 5, 6⟩).getitem 0 =
      .ok ⟨1, 4, 5, 6⟩ :=
  set_then_get (APA102.init 2) 0 ⟨1, 4, 5, 6⟩ (by decide) (by decide)
    (by decide) (by decide)

/-- Claim C9: `Get`/`Set` raise `IndexError` exactly outside `[0, N)`: for
`i < 0` or `i ≥ N` both raise `IndexError` (for `Set`, with any valid
value), and for `i ∈ [0, N)` neither raises. -/
theorem index_bounds_errors :
    (∀ (s : APA102) (i : ℤ), i < 0 ∨ (s._leds : ℤ) ≤ i →
      s.getitem i = .error .indexError ∧
      ∀ o : LedOutput, validLedOutput o →
        s.setitem i o = .error .indexError) ∧
    (∀ (s : APA102) (i : ℤ), 0 ≤ i → i < (s._leds : ℤ) →
      (∃ v, s.getitem i = .ok v) ∧
      ∀ o : LedOutput, validLedOutput o → ∃ s', s.setitem i o = .ok s') := by
  constructor
  · intro s i h
    have hcond : ¬(0 ≤ i ∧ i < (s._leds : ℤ)) := by omega
    constructor
    · unfold APA102.getitem
      rw [if_pos hcond]
    · intro o hv
      simp only [APA102.setitem, check_valid_none o hv]
      rw [if_pos hcond]
  · intro s i h0 hN
    have hcond : ¬¬(0 ≤ i ∧ i < (s._leds : ℤ)) := not_not_intro ⟨h0, hN⟩
    constructor
    · exact ⟨_, by unfold APA102.getitem; rw [if_neg hcond]⟩
    · intro o hv
      refine ⟨s.set_unchecked i.toNat o, ?_⟩
      simp only [APA102.setitem, check_valid_none o hv]
      rw [if_neg hcond]

/-- Witness for C9 at the claim's example: `N = 8`, indices `-1` and `8`
fail, `0` and `7` succeed, with `LedOutput(1,4,5,6)`. -/
theorem index_bounds_errors_witness :
    (APA102.init 8).getitem (-1) = .error .indexError ∧
    (APA102.init 8).setitem (-1) ⟨1, 4, 5, 6⟩ = .error .indexError ∧
    (APA102.init 8).getitem 8 = .error .indexError ∧
    (APA102.init 8).setitem 8 ⟨1, 4, 5, 6⟩ = .error .indexError ∧
    (∃ v, (APA102.init 8).getitem 0 = .ok v) ∧
    (∃ s', (APA102.init 8).setitem 7 ⟨1, 4, 5, 6⟩ = .ok s') :=
  ⟨(index_bounds_errors.1 (APA102.init 8) (-1) (Or.inl (by decide))).1,
   (index_bounds_errors.1 (APA102.init 8) (-1) (Or.inl (by decide))).2
     ⟨1, 4, 5, 6⟩ (by decide),
   (index_bounds_errors.1 (APA102.init 8) 8 (Or.inr (by decide))).1,
   (index_bounds_errors.1 (APA102.init 8) 8 (Or.inr (by decide))).2
     ⟨1, 4, 5, 6⟩ (by decide),
   (index_bounds_errors.2 (APA102.init 8) 0 (by decide) (by decide)).1,
   (index_bounds_errors.2 (APA102.init 8) 7 (by decide) (by decide)).2
     ⟨1, 4, 5, 6⟩ (by decide)⟩

end Apa102
